import Mathlib

/-!
Verification of the spdlog pattern-formatting slice.

Shallow embedding of `include/spdlog/details/fmt_helper.h` and
`include/spdlog/details/pattern_formatter_impl.h`.  Buffers are modelled as
the `String` a formatting step appends; C++ `int` values are modelled as
`Int` (with truncated division `Int.tdiv` / `Int.tmod` mirroring C++ `/`
and `%`), `size_t` / `unsigned` values as `Nat`, and the
`static_cast<unsigned int>` conversions as reduction modulo 2^32.
Timestamps (`log_clock::time_point`) are nanosecond counts since the epoch,
matching the finest duration the code casts through.
-/

namespace Spdlog

/-! ## Model of the fmt library primitives used by the slice -/

/-- Conversion `static_cast<unsigned int>` applied to a C++ `int`:
two's-complement reduction modulo 2^32. -/
def toUInt32 (x : Int) : Nat := (x % 4294967296).toNat

/-- Left-pad a string with zeros up to width `w` (no truncation). -/
def zeroPad (w : Nat) (s : String) : String :=
  String.mk (List.replicate (w - s.length) '0') ++ s

/-- Model of `fmt::pad(n, w, '0')` for an unsigned value. -/
def fmtPadNat (n : Nat) (w : Nat) : String := zeroPad w (Nat.repr n)

/-- Model of `fmt::pad(n, w, '0')` / `fmt::format_to(dest, "0-padded", n)`
for a signed value: printf-style zero padding, sign first. -/
def fmtPad (n : Int) (w : Nat) : String :=
  if 0 ≤ n then zeroPad w (Nat.repr n.toNat)
  else "-" ++ zeroPad (w - 1) (Nat.repr (-n).toNat)

/-- Model of `fmt::format_int` / `append_int`: plain decimal text. -/
def append_int (n : Int) : String := Int.repr n

/-- The character `'0' + n` for a digit value `n`. -/
def digit (n : Nat) : Char := Char.ofNat ('0'.toNat + n)

/-! ## fmt_helper.h -/

/-- `fmt_helper::pad2` (fmt_helper.h, lines 45-67). -/
def pad2 (n : Int) : String :=
  if n > 99 then append_int n
  else if n > 9 then String.mk [digit (n.tdiv 10).toNat, digit (n.tmod 10).toNat]
  else if n ≥ 0 then String.mk ['0', digit n.toNat]
  else fmtPad n 2

/-- `fmt_helper::pad3` (fmt_helper.h, lines 69-100). -/
def pad3 (n : Int) : String :=
  if n > 999 then append_int n
  else if n > 99 then String.mk [digit (n.tdiv 100).toNat] ++ pad2 (n.tmod 100)
  else if n > 9 then String.mk ['0', digit (n.tdiv 10).toNat, digit (n.tmod 10).toNat]
  else if n ≥ 0 then String.mk ['0', '0', digit n.toNat]
  else fmtPad n 3

/-- `fmt_helper::pad6` (fmt_helper.h, lines 102-112); the argument is a
`size_t`, hence `Nat`. -/
def pad6 (n : Nat) : String :=
  if n > 99999 then Nat.repr n
  else pad3 (Int.ofNat (n / 1000)) ++ pad3 (Int.ofNat (n % 1000))

/-- `fmt_helper::time_fraction<milliseconds>` (fmt_helper.h, lines 117-125):
`duration_cast<ms>(d) - duration_cast<ms>(duration_cast<seconds>(d))` with
`d` the nanosecond count `t`. -/
def time_fraction_ms (t : Int) : Int := t.tdiv 1000000 - t.tdiv 1000000000 * 1000

/-- `fmt_helper::time_fraction<microseconds>`. -/
def time_fraction_us (t : Int) : Int := t.tdiv 1000 - t.tdiv 1000000000 * 1000000

/-- `fmt_helper::time_fraction<nanoseconds>`. -/
def time_fraction_ns (t : Int) : Int := t - t.tdiv 1000000000 * 1000000000

/-! ## Data model -/

/-- The `std::tm` calendar breakdown; all fields are C++ `int`. -/
structure Tm where
  tm_sec : Int
  tm_min : Int
  tm_hour : Int
  tm_mday : Int
  tm_mon : Int
  tm_year : Int
  tm_wday : Int
  deriving DecidableEq

/-- The parts of `details::log_msg` the formatters read.  `time` is the
`log_clock::time_point` as nanoseconds since the epoch. -/
structure LogMsg where
  logger_name : String
  level : Nat
  raw : String
  time : Int
  thread_id : Nat
  deriving DecidableEq

/-- Modelled from the spec: the OS-level collaborators external to this
slice (`details::os::pid()` and `os::utc_minutes_offset` from os.h, which
is not under src/). -/
structure OsEnv where
  pid : Nat
  utc_minutes_offset : Tm → Int

/-- Modelled from the spec: the externally supplied full level-string
lookup (`level::to_str`, declared outside this slice). -/
def level_names : List String :=
  ["trace", "debug", "info", "warning", "error", "critical", "off"]

/-- Modelled from the spec: `level::to_str`. -/
def to_str (l : Nat) : String := level_names.getD l ""

/-- Modelled from the spec: the short level-string lookup
(`level::to_short_str`, declared outside this slice). -/
def short_level_names : List String := ["T", "D", "I", "W", "E", "C", "O"]

/-- Modelled from the spec: `level::to_short_str`. -/
def to_short_str (l : Nat) : String := short_level_names.getD l ""

/-! ## Name and calendar tables (pattern_formatter_impl.h) -/

/-- `days()` (line 122). -/
def days : List String := ["Sun", "Mon", "Tue", "Wed", "Thu", "Fri", "Sat"]

/-- `full_days()` (line 147). -/
def full_days : List String :=
  ["Sunday", "Monday", "Tuesday", "Wednesday", "Thursday", "Friday", "Saturday"]

/-- `months()` (lines 163-168). -/
def months : List String :=
  ["Jan", "Feb", "Mar", "Apr", "May", "June", "July", "Aug", "Sept", "Oct", "Nov", "Dec"]

/-- `full_months()` (lines 182-186). -/
def full_months : List String :=
  ["January", "February", "March", "April", "May", "June", "July", "August",
   "September", "October", "November", "December"]

/-! ## flag_formatter padding helpers (lines 38-57) -/

/-- `flag_formatter::pad_space_left`. -/
def pad_space_left (len : Nat) (str : String) : String :=
  (if str.length < len then String.mk (List.replicate (len - str.length) ' ') else "") ++ str

/-- `flag_formatter::pad_space_right` (string overload). -/
def pad_space_right (len : Nat) (str : String) : String :=
  str ++ (if str.length < len then String.mk (List.replicate (len - str.length) ' ') else "")

/-- `flag_formatter::pad_space_right` (size_t overload): fmt left-aligned,
space-filled field of width `len`. -/
def pad_space_right_val (len : Nat) (val : Nat) : String :=
  pad_space_right len (Nat.repr val)

/-! ## Date/time helpers (lines 108-116) -/

/-- `ampm` (lines 108-111). -/
def ampm (t : Tm) : String := if t.tm_hour ≥ 12 then "PM" else "AM"

/-- `to12h` (lines 113-116). -/
def to12h (t : Tm) : Int := if t.tm_hour > 12 then t.tm_hour - 12 else t.tm_hour

/-- `pad_n_join` with two ints (lines 201-205). -/
def pad_n_join2 (v1 v2 : Int) (sep : Char) : String :=
  fmtPad v1 2 ++ String.mk [sep] ++ fmtPad v2 2

/-- `pad_n_join` with three ints (lines 208-212). -/
def pad_n_join3 (v1 v2 v3 : Int) (sep : Char) : String :=
  fmtPad v1 2 ++ String.mk [sep] ++ fmtPad v2 2 ++ String.mk [sep] ++ fmtPad v3 2

/-! ## The directive formatter bodies -/

/-- `name_formatter::format` (lines 65-75). -/
def name_formatter (len : Nat) (msg : LogMsg) : String :=
  pad_space_left len msg.logger_name

/-- `level_formatter::format` (lines 79-89). -/
def level_formatter (len : Nat) (msg : LogMsg) : String :=
  pad_space_left len (to_str msg.level)

/-- `short_level_formatter::format` (lines 92-102). -/
def short_level_formatter (len : Nat) (msg : LogMsg) : String :=
  pad_space_left len (to_short_str msg.level)

/-- `a_formatter::format` (lines 125-135). -/
def a_formatter (len : Nat) (t : Tm) : String :=
  pad_space_right len (days.getD t.tm_wday.toNat "")

/-- `A_formatter::format` (lines 150-160). -/
def A_formatter (len : Nat) (t : Tm) : String :=
  pad_space_right len (full_days.getD t.tm_wday.toNat "")

/-- `b_formatter::format` (lines 169-179). -/
def b_formatter (len : Nat) (t : Tm) : String :=
  pad_space_right len (months.getD t.tm_mon.toNat "")

/-- `B_formatter::format` (lines 187-197). -/
def B_formatter (len : Nat) (t : Tm) : String :=
  pad_space_right len (full_months.getD t.tm_mon.toNat "")

/-- `c_formatter::format` (lines 216-223). -/
def c_formatter (t : Tm) : String :=
  days.getD t.tm_wday.toNat "" ++ " " ++ months.getD t.tm_mon.toNat "" ++ " "
    ++ Int.repr t.tm_mday ++ " " ++ pad_n_join3 t.tm_hour t.tm_min t.tm_sec ':'
    ++ " " ++ Int.repr (t.tm_year + 1900)

/-- `C_formatter::format` (lines 227-233); C++ `%` is truncated `tmod`. -/
def C_formatter (t : Tm) : String := fmtPad (t.tm_year.tmod 100) 2

/-- `D_formatter::format` (lines 238-244). -/
def D_formatter (t : Tm) : String :=
  pad_n_join3 (t.tm_mon + 1) t.tm_mday (t.tm_year.tmod 100) '/'

/-- `Y_formatter::format` (lines 248-254). -/
def Y_formatter (t : Tm) : String := Int.repr (t.tm_year + 1900)

/-- `m_formatter::format` (lines 257-263). -/
def m_formatter (t : Tm) : String := fmtPad (t.tm_mon + 1) 2

/-- `d_formatter::format` (lines 266-272). -/
def d_formatter (t : Tm) : String := fmtPad t.tm_mday 2

/-- `H_formatter::format` (lines 275-281). -/
def H_formatter (t : Tm) : String := fmtPad t.tm_hour 2

/-- `I_formatter::format` (lines 284-290). -/
def I_formatter (t : Tm) : String := fmtPad (to12h t) 2

/-- `M_formatter::format` (lines 293-299). -/
def M_formatter (t : Tm) : String := fmtPad t.tm_min 2

/-- `S_formatter::format` (lines 302-308). -/
def S_formatter (t : Tm) : String := fmtPad t.tm_sec 2

/-- `e_formatter::format` (lines 311-319): milliseconds of the timestamp,
`duration_cast<milliseconds>(d).count() % 1000` padded to width 3. -/
def e_formatter (msg : LogMsg) : String :=
  fmtPad ((msg.time.tdiv 1000000).tmod 1000) 3

/-- `f_formatter::format` (lines 322-330). -/
def f_formatter (msg : LogMsg) : String :=
  fmtPad ((msg.time.tdiv 1000).tmod 1000000) 6

/-- `F_formatter::format` (lines 333-341). -/
def F_formatter (msg : LogMsg) : String :=
  fmtPad (msg.time.tmod 1000000000) 9

/-- `p_formatter::format` (lines 344-350). -/
def p_formatter (t : Tm) : String := ampm t

/-- `r_formatter::format` (lines 354-360). -/
def r_formatter (t : Tm) : String :=
  pad_n_join3 (to12h t) t.tm_min t.tm_sec ':' ++ " " ++ ampm t

/-- `R_formatter::format` (lines 363-369). -/
def R_formatter (t : Tm) : String := pad_n_join2 t.tm_hour t.tm_min ':'

/-- `T_formatter::format` (lines 372-378). -/
def T_formatter (t : Tm) : String := pad_n_join3 t.tm_hour t.tm_min t.tm_sec ':'

/-- Body of `z_formatter::format` (lines 391-416) given the total minutes
offset it obtained (on non-Windows builds directly from
`os::utc_minutes_offset(tm_time)`). -/
def z_formatter_format (total0 : Int) : String :=
  let is_negative := total0 < 0
  let total_minutes := if is_negative then -total0 else total0
  let sign := if is_negative then "-" else "+"
  sign ++ pad_n_join2 (total_minutes.tdiv 60) (total_minutes.tmod 60) ':'

/-- `t_formatter::format` (lines 438-448). -/
def t_formatter (len : Nat) (msg : LogMsg) : String :=
  pad_space_right_val len msg.thread_id

/-- `pid_formatter::format` (lines 451-460). -/
def pid_formatter (len : Nat) (env : OsEnv) : String :=
  pad_space_right_val len env.pid

/-- `v_formatter::format` (lines 463-469). -/
def v_formatter (msg : LogMsg) : String := msg.raw

/-- `full_formatter::format` (lines 505-548), default build (neither
`SPDLOG_NO_DATETIME` nor `SPDLOG_NO_NAME` defined).  Every numeric field is
passed through `static_cast<unsigned int>` in the source. -/
def full_formatter (msg : LogMsg) (t : Tm) : String :=
  "[" ++ Nat.repr (toUInt32 (t.tm_year + 1900)) ++ "-"
    ++ fmtPadNat (toUInt32 (t.tm_mon + 1)) 2 ++ "-"
    ++ fmtPadNat (toUInt32 t.tm_mday) 2 ++ " "
    ++ fmtPadNat (toUInt32 t.tm_hour) 2 ++ ":"
    ++ fmtPadNat (toUInt32 t.tm_min) 2 ++ ":"
    ++ fmtPadNat (toUInt32 t.tm_sec) 2 ++ "."
    ++ fmtPadNat (toUInt32 ((msg.time.tdiv 1000000).tmod 1000)) 3 ++ "] "
    ++ "[" ++ msg.logger_name ++ "] "
    ++ "[" ++ to_str msg.level ++ "] "
    ++ msg.raw

/-! ## TimezoneOffsetCache (z_formatter, lines 417-432) -/

/-- `z_formatter::cache_refresh`: 5 seconds, in nanoseconds. -/
def cache_refresh : Int := 5000000000

/-- The mutable fields of `z_formatter`: `_last_update` (nanoseconds since
the epoch) and `_offset_minutes`. -/
structure ZState where
  last_update : Int
  offset_minutes : Int
  deriving DecidableEq

/-- `z_formatter::get_cached_offset` (lines 422-432), as the sequential
state transition performed inside the lock. -/
def get_cached_offset (env : OsEnv) (st : ZState) (msg_time : Int) (tm_time : Tm) :
    ZState × Int :=
  if msg_time - st.last_update ≥ cache_refresh then
    let o := env.utc_minutes_offset tm_time
    (⟨msg_time, o⟩, o)
  else (st, st.offset_minutes)

/-! ## Directives and the compiler -/

/-- One compiled pattern token; one constructor per `flag_formatter`
subclass reachable from `handle_flag` (`aggregate_formatter` and
`ch_formatter` both append fixed text and are folded into `lit`). -/
inductive Directive where
  | lit (s : String)
  | name (len : Nat)
  | level (len : Nat)
  | shortLevel (len : Nat)
  | threadId (len : Nat)
  | procId (len : Nat)
  | msgText
  | dayAbbr (len : Nat)
  | dayFull (len : Nat)
  | monAbbr (len : Nat)
  | monFull (len : Nat)
  | dateTime
  | year2
  | year4
  | dateShort
  | month2
  | day2
  | hour24
  | hour12
  | minute
  | second
  | millis
  | micros
  | nanos
  | ampmMark
  | clock12
  | clockHM
  | clockHMS
  | utcOffset
  | fullLine
  deriving DecidableEq

/-- Model of `strtoul(length_chars)` (the `length` computation in
`handle_flag`, lines 606-610); empty digits give 0, overflow saturates at
`ULONG_MAX`. -/
def parseWidth (lc : List Char) : Nat :=
  min (lc.foldl (fun a c => a * 10 + (c.toNat - '0'.toNat)) 0) 18446744073709551615

/-- `pattern_formatter::handle_flag` (lines 597-752): `none` when the
character is a width digit (the C++ `return false` path, which appends the
digit to `length_chars`), otherwise the constructed directive.  The `'i'`
case is excluded because `SPDLOG_ENABLE_MESSAGE_COUNTER` is not defined in
the default build, so `'i'` falls into the default (literal) case. -/
def handle_flag (c : Char) (length_chars : List Char) : Option Directive :=
  if c.isDigit then none
  else some (
    let len := parseWidth length_chars
    if c = 'n' then .name len
    else if c = 'l' then .level len
    else if c = 'L' then .shortLevel len
    else if c = 't' then .threadId len
    else if c = 'v' then .msgText
    else if c = 'a' then .dayAbbr len
    else if c = 'A' then .dayFull len
    else if c = 'b' ∨ c = 'h' then .monAbbr len
    else if c = 'B' then .monFull len
    else if c = 'c' then .dateTime
    else if c = 'C' then .year2
    else if c = 'Y' then .year4
    else if c = 'D' ∨ c = 'x' then .dateShort
    else if c = 'm' then .month2
    else if c = 'd' then .day2
    else if c = 'H' then .hour24
    else if c = 'I' then .hour12
    else if c = 'M' then .minute
    else if c = 'S' then .second
    else if c = 'e' then .millis
    else if c = 'f' then .micros
    else if c = 'F' then .nanos
    else if c = 'p' then .ampmMark
    else if c = 'r' then .clock12
    else if c = 'R' then .clockHM
    else if c = 'T' ∨ c = 'X' then .clockHMS
    else if c = 'z' then .utcOffset
    else if c = '+' then .fullLine
    else if c = 'P' then .procId len
    else .lit (String.mk ('%' :: (length_chars ++ [c]))))

/-- The selector characters with a `handle_flag` case in the default build. -/
def catalog_chars : List Char :=
  ['n', 'l', 'L', 't', 'v', 'a', 'A', 'b', 'h', 'B', 'c', 'C', 'Y', 'D', 'x',
   'm', 'd', 'H', 'I', 'M', 'S', 'e', 'f', 'F', 'p', 'r', 'R', 'T', 'X', 'z', '+', 'P']

/-- Whether the scanner is between directives (`text`) or inside a
`%`-sequence (`flag`, the C++ inner `while` loop). -/
inductive ScanMode where
  | text
  | flag
  deriving DecidableEq

/-- The loop state of `compile_pattern` (lines 563-596): emitted directives,
the pending `aggregate_formatter` (`user_chars`, `none` = null pointer),
the accumulated width digits (`length_chars`) and the scan mode. -/
structure CompState where
  out : List Directive
  ucs : Option (List Char)
  lc : List Char
  mode : ScanMode
  deriving DecidableEq

/-- Flush the pending literal run (`if (user_chars) push_back`). -/
def flush_user_chars : Option (List Char) → List Directive
  | none => []
  | some l => [.lit (String.mk l)]

/-- One character step of `compile_pattern`'s scan. -/
def compileStep (s : CompState) (c : Char) : CompState :=
  match s.mode with
  | .text =>
    if c = '%' then ⟨s.out ++ flush_user_chars s.ucs, none, s.lc, .flag⟩
    else ⟨s.out, some ((s.ucs.getD []) ++ [c]), s.lc, .text⟩
  | .flag =>
    match handle_flag c s.lc with
    | none => ⟨s.out, s.ucs, s.lc ++ [c], .flag⟩
    | some d => ⟨s.out ++ [d], s.ucs, [], .text⟩

/-- Scan a whole pattern from the initial state. -/
def scanPattern (p : String) : CompState :=
  p.data.foldl compileStep ⟨[], none, [], .text⟩

/-- `pattern_formatter::compile_pattern` (lines 563-596): the final flush
appends the pending literal run; a scan that ends inside a `%`-sequence
(the `it == end` break) has already flushed it and emits nothing more. -/
def compile_pattern (p : String) : List Directive :=
  (scanPattern p).out ++ flush_user_chars (scanPattern p).ucs

/-- The scan of `p` ends outside a `%`-sequence (every `%` in `p` was
completed by a selector character). -/
def endsComplete (p : String) : Prop := (scanPattern p).mode = ScanMode.text

instance (p : String) : Decidable (endsComplete p) := by
  unfold endsComplete
  infer_instance

/-- `flag_formatter::format` dispatch: the text a single compiled directive
appends for a record and calendar breakdown (the `z` directive on the
non-Windows path, where the offset is recomputed from
`os::utc_minutes_offset(tm_time)` on every call). -/
def applyDirective (env : OsEnv) (msg : LogMsg) (t : Tm) : Directive → String
  | .lit s => s
  | .name len => name_formatter len msg
  | .level len => level_formatter len msg
  | .shortLevel len => short_level_formatter len msg
  | .threadId len => t_formatter len msg
  | .procId len => pid_formatter len env
  | .msgText => v_formatter msg
  | .dayAbbr len => a_formatter len t
  | .dayFull len => A_formatter len t
  | .monAbbr len => b_formatter len t
  | .monFull len => B_formatter len t
  | .dateTime => c_formatter t
  | .year2 => C_formatter t
  | .year4 => Y_formatter t
  | .dateShort => D_formatter t
  | .month2 => m_formatter t
  | .day2 => d_formatter t
  | .hour24 => H_formatter t
  | .hour12 => I_formatter t
  | .minute => M_formatter t
  | .second => S_formatter t
  | .millis => e_formatter msg
  | .micros => f_formatter msg
  | .nanos => F_formatter msg
  | .ampmMark => p_formatter t
  | .clock12 => r_formatter t
  | .clockHM => R_formatter t
  | .clockHMS => T_formatter t
  | .utcOffset => z_formatter_format (env.utc_minutes_offset t)
  | .fullLine => full_formatter msg t

/-- Walk a compiled chain in order, concatenating the appended text
(`pattern_formatter::format`, lines 762-776, without the trailing eol that
both sides of every comparison share). -/
def applyChain (env : OsEnv) (msg : LogMsg) (t : Tm) (ds : List Directive) : String :=
  String.join (ds.map (applyDirective env msg t))

/-- The default pattern named by the spec and by the `full_formatter`
comment (line 504). -/
def default_pattern : String := "[%Y-%m-%d %H:%M:%S.%e] [%n] [%l] %v"

/-! ## General helper lemmas -/

theorem length_mk (l : List Char) : (String.mk l).length = l.length := rfl

theorem empty_append_str (s : String) : "" ++ s = s := by
  apply String.ext
  rw [String.data_append]
  rfl

theorem tdiv_ofNat (a b : Nat) : (Int.ofNat a).tdiv (Int.ofNat b) = Int.ofNat (a / b) := rfl

theorem tdiv_tdiv (t : Int) (m n : Nat) :
    (t.tdiv (Int.ofNat m)).tdiv (Int.ofNat n) = t.tdiv (Int.ofNat (m * n)) := by
  cases t with
  | ofNat a =>
      rw [tdiv_ofNat, tdiv_ofNat, tdiv_ofNat, Nat.div_div_eq_div_mul]
  | negSucc a =>
      rw [Int.negSucc_eq, Int.neg_tdiv, Int.neg_tdiv, Int.neg_tdiv,
        show ((a : Int) + 1) = Int.ofNat (a + 1) from rfl,
        tdiv_ofNat, tdiv_ofNat, tdiv_ofNat, Nat.div_div_eq_div_mul]

theorem Int_repr_of_nonneg (x : Int) (h : 0 ≤ x) : Int.repr x = Nat.repr x.toNat := by
  cases x with
  | ofNat m => rfl
  | negSucc m => exact absurd h (Int.negSucc_lt_zero m).not_le

theorem toUInt32_of_small (x : Int) (h0 : 0 ≤ x) (h1 : x < 4294967296) :
    toUInt32 x = x.toNat := by
  unfold toUInt32
  rw [Int.emod_eq_of_lt h0 h1]

theorem pad_space_left_zero (s : String) : pad_space_left 0 s = s := by
  unfold pad_space_left
  rw [if_neg (by omega), empty_append_str]

theorem fmtPad_of_nonneg (n : Int) (w : Nat) (h : 0 ≤ n) :
    fmtPad n w = zeroPad w (Nat.repr n.toNat) := by
  unfold fmtPad
  rw [if_pos h]

theorem zeroPad_length (w : Nat) (s : String) : (zeroPad w s).length = max w s.length := by
  unfold zeroPad
  rw [String.length_append, length_mk, List.length_replicate]
  omega

theorem toDigitsCore_length_le (b : Nat) (hb : 2 ≤ b) :
    ∀ (fuel n k : Nat) (ds : List Char), n < fuel → n < b ^ k → 0 < k →
      (Nat.toDigitsCore b fuel n ds).length ≤ ds.length + k := by
  intro fuel
  induction fuel with
  | zero => intro n k ds hf; omega
  | succ fuel ih =>
      intro n k ds hf hn hk
      rw [Nat.toDigitsCore]
      by_cases hz : n / b = 0
      · rw [if_pos hz]
        simp only [List.length_cons]
        omega
      · rw [if_neg hz]
        have hbpos : 0 < b := by omega
        have hdivlt : n / b < b ^ (k - 1) := by
          rw [Nat.div_lt_iff_lt_mul hbpos]
          calc n < b ^ k := hn
            _ = b ^ (k - 1) * b := by
                rw [← pow_succ]
                congr 1
                omega
        have hnpos : 0 < n := by
          rcases Nat.eq_zero_or_pos n with h0 | h0
          · exact absurd (by rw [h0]; exact Nat.zero_div b) hz
          · exact h0
        have hfuel : n / b < fuel := by
          have hlt : n / b < n := Nat.div_lt_self hnpos (by omega)
          exact Nat.lt_of_lt_of_le hlt (Nat.lt_succ_iff.mp hf)
        have hk1 : 0 < k - 1 := by
          rcases Nat.lt_or_ge 1 k with hgt | hle
          · omega
          · exfalso
            have hk0 : k - 1 = 0 := by omega
            rw [hk0, pow_zero] at hdivlt
            exact hz (Nat.lt_one_iff.mp hdivlt)
        have hrec := ih (n / b) (k - 1) ((n % b).digitChar :: ds) hfuel hdivlt hk1
        simp only [List.length_cons] at hrec
        exact le_trans hrec (by omega)

theorem repr_length_le (n k : Nat) (hn : n < 10 ^ k) (hk : 0 < k) :
    (Nat.repr n).length ≤ k := by
  have h := toDigitsCore_length_le 10 (by norm_num) (n + 1) n k []
    (Nat.lt_succ_self n) hn hk
  simpa [Nat.repr, Nat.toDigits, List.asString, length_mk] using h

theorem repr_two_digits :
    ∀ m : Nat, m < 100 → 10 ≤ m → Nat.repr m = String.mk [digit (m / 10), digit (m % 10)] := by
  decide

theorem repr_one_digit :
    ∀ m : Nat, m < 10 → Nat.repr m = String.mk [digit m] := by
  decide

/-! ## Claim theorems -/

/-- Claim C6: the 12-hour conversion used by the `%I` and `%r` directives
maps an hour above 12 to `hour - 12` and passes the hour unchanged
otherwise (so hour 0 stays 0), and the AM/PM marker is "PM" exactly when
the hour is at least 12 and "AM" otherwise. -/
theorem to12h_ampm_spec (t : Tm) :
    (12 < t.tm_hour → to12h t = t.tm_hour - 12) ∧
    (t.tm_hour ≤ 12 → to12h t = t.tm_hour) ∧
    (ampm t = "PM" ↔ 12 ≤ t.tm_hour) ∧
    (ampm t = "AM" ↔ t.tm_hour < 12) ∧
    (∀ env msg, applyDirective env msg t Directive.hour12 = fmtPad (to12h t) 2 ∧
      applyDirective env msg t Directive.ampmMark = ampm t ∧
      applyDirective env msg t Directive.clock12 =
        pad_n_join3 (to12h t) t.tm_min t.tm_sec ':' ++ " " ++ ampm t) := by
  refine ⟨fun h => ?_, fun h => ?_, ?_, ?_, fun env msg => ⟨rfl, rfl, rfl⟩⟩
  · unfold to12h
    rw [if_pos h]
  · unfold to12h
    rw [if_neg (by omega)]
  · unfold ampm
    by_cases h : 12 ≤ t.tm_hour
    · rw [if_pos h]
      simp [h]
    · rw [if_neg h]
      constructor
      · intro hc
        exact absurd hc (by decide)
      · intro hc
        exact absurd hc h
  · unfold ampm
    by_cases h : 12 ≤ t.tm_hour
    · rw [if_pos h]
      constructor
      · intro hc
        exact absurd hc (by decide)
      · intro hc
        omega
    · rw [if_neg h]
      simp
      omega

/-- Witness for C6: hour 0 maps to 0 and stays "AM", hour 15 maps to 3 and
is "PM". -/
theorem to12h_ampm_spec_witness :
    to12h ⟨0, 0, 0, 1, 0, 70, 0⟩ = 0 ∧ to12h ⟨0, 0, 15, 1, 0, 70, 0⟩ = 15 - 12 := by
  constructor
  · exact (to12h_ampm_spec ⟨0, 0, 0, 1, 0, 70, 0⟩).2.1 (by norm_num)
  · exact (to12h_ampm_spec ⟨0, 0, 15, 1, 0, 70, 0⟩).1 (by norm_num)

/-- Claim C7: `pad2` appends the full decimal text for `n > 99` (no
truncation), exactly the two digits for `10 ≤ n ≤ 99`, a leading zero plus
the digit for `0 ≤ n ≤ 9`, and the generic width-2 zero-padded signed
rendering for `n < 0`. -/
theorem pad2_spec (n : Int) :
    (99 < n → pad2 n = append_int n) ∧
    (10 ≤ n → n ≤ 99 → pad2 n = Nat.repr n.toNat ∧ (pad2 n).length = 2) ∧
    (0 ≤ n → n ≤ 9 → pad2 n = "0" ++ Nat.repr n.toNat) ∧
    (n < 0 → pad2 n = fmtPad n 2) := by
  refine ⟨fun h => ?_, fun h1 h2 => ?_, fun h1 h2 => ?_, fun h => ?_⟩
  · unfold pad2
    rw [if_pos h]
  · have hn : pad2 n = String.mk [digit (n.tdiv 10).toNat, digit (n.tmod 10).toNat] := by
      unfold pad2
      rw [if_neg (by omega), if_pos (by omega)]
    obtain ⟨m, rfl⟩ : ∃ m : Nat, n = (m : Int) :=
      ⟨n.toNat, (Int.toNat_of_nonneg (by omega)).symm⟩
    have hm1 : 10 ≤ m := by omega
    have hm2 : m < 100 := by omega
    rw [hn]
    constructor
    · show String.mk [digit (m / 10), digit (m % 10)] = Nat.repr m
      exact (repr_two_digits m hm2 hm1).symm
    · rfl
  · have hn : pad2 n = String.mk ['0', digit n.toNat] := by
      unfold pad2
      rw [if_neg (by omega), if_neg (by omega), if_pos (by omega)]
    rw [hn, repr_one_digit n.toNat (by omega)]
    rfl
  · unfold pad2
    rw [if_neg (by omega), if_neg (by omega), if_neg (by omega)]

/-- Witness for C7 at 150, 42, 5 and -3. -/
theorem pad2_spec_witness :
    pad2 150 = append_int 150 ∧ pad2 42 = Nat.repr 42 ∧ (pad2 42).length = 2 ∧
    pad2 5 = "0" ++ Nat.repr 5 ∧ pad2 (-3) = fmtPad (-3) 2 := by
  have h42 := (pad2_spec 42).2.1 (by norm_num) (by norm_num)
  have h5 := (pad2_spec 5).2.2.1 (by norm_num) (by norm_num)
  exact ⟨(pad2_spec 150).1 (by norm_num), h42.1, h42.2, h5, (pad2_spec (-3)).2.2.2 (by norm_num)⟩

/-- Claim C8: `pad6` appends the full decimal text when `n > 99999` and
otherwise composes `pad3` on `n / 1000` and `n % 1000`; `pad3` maps 0, 9,
99, 999, 1000 to "000", "009", "099", "999", "1000". -/
theorem pad6_pad3_spec (n : Nat) :
    (99999 < n → pad6 n = Nat.repr n) ∧
    (n ≤ 99999 → pad6 n = pad3 (Int.ofNat (n / 1000)) ++ pad3 (Int.ofNat (n % 1000))) ∧
    pad3 0 = "000" ∧ pad3 9 = "009" ∧ pad3 99 = "099" ∧
    pad3 999 = "999" ∧ pad3 1000 = "1000" := by
  refine ⟨fun h => ?_, fun h => ?_, by decide, by decide, by decide, by decide, by decide⟩
  · unfold pad6
    rw [if_pos h]
  · unfold pad6
    rw [if_neg (by omega)]

/-- Witness for C8 at 123456 (overflow) and 4242 (composition). -/
theorem pad6_pad3_spec_witness :
    pad6 123456 = Nat.repr 123456 ∧
    pad6 4242 = pad3 (Int.ofNat (4242 / 1000)) ++ pad3 (Int.ofNat (4242 % 1000)) := by
  exact ⟨(pad6_pad3_spec 123456).1 (by norm_num), (pad6_pad3_spec 4242).2.1 (by norm_num)⟩

/-- Claim C10: the abbreviated-month directive (`%b` / `%h`) selects from
the fixed table whose entries at month indices 5, 6 and 8 are the
four-character strings "June", "July" and "Sept", so abbreviated month
names are not uniformly three characters wide. -/
theorem months_table_spec (t : Tm) :
    compile_pattern "%b" = [Directive.monAbbr 0] ∧
    compile_pattern "%h" = [Directive.monAbbr 0] ∧
    months = ["Jan", "Feb", "Mar", "Apr", "May", "June", "July", "Aug",
              "Sept", "Oct", "Nov", "Dec"] ∧
    (∀ env msg len,
      (t.tm_mon = 5 → applyDirective env msg t (Directive.monAbbr len) =
        pad_space_right len "June") ∧
      (t.tm_mon = 6 → applyDirective env msg t (Directive.monAbbr len) =
        pad_space_right len "July") ∧
      (t.tm_mon = 8 → applyDirective env msg t (Directive.monAbbr len) =
        pad_space_right len "Sept")) ∧
    ("June".length = 4 ∧ "July".length = 4 ∧ "Sept".length = 4) ∧
    ¬ (∀ i, i < 12 → (months.getD i "").length = 3) := by
  refine ⟨by decide, by decide, rfl, fun env msg len => ⟨fun h => ?_, fun h => ?_, fun h => ?_⟩,
    ⟨rfl, rfl, rfl⟩, fun hall => absurd (hall 5 (by norm_num)) (by decide)⟩
  all_goals
    simp only [applyDirective, b_formatter, h]
    rfl

/-- Witness for C10: a June record rendered through the abbreviated-month
directive. -/
theorem months_table_spec_witness :
    applyDirective ⟨0, fun _ => 0⟩ ⟨"", 0, "", 0, 0⟩ ⟨0, 0, 0, 1, 5, 70, 0⟩
      (Directive.monAbbr 0) = pad_space_right 0 "June" :=
  ((months_table_spec ⟨0, 0, 0, 1, 5, 70, 0⟩).2.2.2.1 ⟨0, fun _ => 0⟩ ⟨"", 0, "", 0, 0⟩ 0).1 rfl

/-- Claim C2 (the intended `%P` semantics, abstracting away the C++ access
control under which the dispatch is ill-formed): compiling `%P`, optionally
with a width prefix, constructs a width-aware process-id directive whose
application appends the process id. -/
theorem pid_directive_spec :
    compile_pattern "%P" = [Directive.procId 0] ∧
    compile_pattern "%5P" = [Directive.procId 5] ∧
    ∀ env msg t len, ∃ padding,
      applyDirective env msg t (Directive.procId len) = Nat.repr env.pid ++ padding := by
  refine ⟨by decide, by decide, fun env msg t len => ⟨_, rfl⟩⟩

/-! ## The compiler scan lemmas for C3 and C4 -/

theorem handle_flag_unknown (c : Char) (w : List Char)
    (hcd : c.isDigit = false) (hc : c ∉ catalog_chars) :
    handle_flag c w = some (Directive.lit (String.mk ('%' :: (w ++ [c])))) := by
  simp only [catalog_chars, List.mem_cons, List.not_mem_nil, or_false, not_or] at hc
  obtain ⟨h1, h2, h3, h4, h5, h6, h7, h8, h9, h10, h11, h12, h13, h14, h15, h16,
    h17, h18, h19, h20, h21, h22, h23, h24, h25, h26, h27, h28, h29, h30, h31, h32⟩ := hc
  simp [handle_flag, hcd, h1, h2, h3, h4, h5, h6, h7, h8, h9, h10, h11, h12, h13, h14,
    h15, h16, h17, h18, h19, h20, h21, h22, h23, h24, h25, h26, h27, h28, h29, h30,
    h31, h32]

theorem scan_digits (w : List Char) (hw : ∀ ch ∈ w, ch.isDigit = true) :
    ∀ out ucs lc, w.foldl compileStep ⟨out, ucs, lc, ScanMode.flag⟩ =
      ⟨out, ucs, lc ++ w, ScanMode.flag⟩ := by
  induction w with
  | nil => intro out ucs lc; simp
  | cons c cs ih =>
      intro out ucs lc
      have hc : c.isDigit = true := hw c (by simp)
      have hcs : ∀ ch ∈ cs, ch.isDigit = true := fun ch h => hw ch (by simp [h])
      have hstep : compileStep ⟨out, ucs, lc, ScanMode.flag⟩ c =
          ⟨out, ucs, lc ++ [c], ScanMode.flag⟩ := by
        simp [compileStep, handle_flag, hc]
      rw [List.foldl_cons, hstep, ih hcs]
      simp

/-- Claim C3: for every width-digit run and every non-digit selector
character outside the directive catalog, the compiler emits a literal
directive reproducing the consumed source text `%` + digits + selector
verbatim, and applying the compiled chain reproduces exactly that text. -/
theorem unknown_selector_spec (w : List Char) (c : Char)
    (hw : ∀ ch ∈ w, ch.isDigit = true) (hcd : c.isDigit = false)
    (hc : c ∉ catalog_chars) :
    handle_flag c w = some (Directive.lit (String.mk ('%' :: (w ++ [c])))) ∧
    compile_pattern (String.mk ('%' :: (w ++ [c]))) =
      [Directive.lit (String.mk ('%' :: (w ++ [c])))] ∧
    ∀ env msg t, applyChain env msg t (compile_pattern (String.mk ('%' :: (w ++ [c])))) =
      String.mk ('%' :: (w ++ [c])) := by
  have hflag := handle_flag_unknown c w hcd hc
  have hcompile : compile_pattern (String.mk ('%' :: (w ++ [c]))) =
      [Directive.lit (String.mk ('%' :: (w ++ [c])))] := by
    unfold compile_pattern scanPattern
    have hdata : (String.mk ('%' :: (w ++ [c]))).data = '%' :: (w ++ [c]) := rfl
    rw [hdata, List.foldl_cons]
    have hpercent : compileStep ⟨[], none, [], ScanMode.text⟩ '%' =
        ⟨[], none, [], ScanMode.flag⟩ := by
      simp [compileStep, flush_user_chars]
    rw [hpercent, List.foldl_append, scan_digits w hw, List.foldl_cons]
    have hsel : compileStep ⟨[], none, [] ++ w, ScanMode.flag⟩ c =
        ⟨[Directive.lit (String.mk ('%' :: (w ++ [c])))], none, [], ScanMode.text⟩ := by
      simp [compileStep, hflag]
    rw [hsel]
    simp [flush_user_chars]
  refine ⟨hflag, hcompile, fun env msg t => ?_⟩
  rw [hcompile]
  show String.join [applyDirective env msg t (Directive.lit (String.mk ('%' :: (w ++ [c]))))] =
    String.mk ('%' :: (w ++ [c]))
  simp [applyDirective, String.join, empty_append_str]

/-- Witness for C3: compiling "%3Q" yields the literal "%3Q" and its
application outputs "%3Q". -/
theorem unknown_selector_spec_witness :
    compile_pattern "%3Q" = [Directive.lit "%3Q"] ∧
    applyChain ⟨0, fun _ => 0⟩ ⟨"", 0, "", 0, 0⟩ ⟨0, 0, 0, 1, 0, 70, 0⟩
      (compile_pattern "%3Q") = "%3Q" := by
  have h := unknown_selector_spec ['3'] 'Q' (by decide) (by decide) (by decide)
  exact ⟨h.2.1, h.2.2 ⟨0, fun _ => 0⟩ ⟨"", 0, "", 0, 0⟩ ⟨0, 0, 0, 1, 0, 70, 0⟩⟩

/-- Claim C4, amended: for every pattern whose scan ends outside a
`%`-sequence (every `%` completed by a selector), appending a trailing bare
`%` leaves the compiled chain, and hence the output on every record,
unchanged. -/
theorem trailing_percent_spec (p : String) (h : endsComplete p) :
    compile_pattern (p ++ "%") = compile_pattern p ∧
    ∀ env msg t, applyChain env msg t (compile_pattern (p ++ "%")) =
      applyChain env msg t (compile_pattern p) := by
  have heq : compile_pattern (p ++ "%") = compile_pattern p := by
    unfold endsComplete at h
    have hscan : scanPattern (p ++ "%") = compileStep (scanPattern p) '%' := by
      unfold scanPattern
      rw [String.data_append, List.foldl_append]
      rfl
    rcases hs : scanPattern p with ⟨out, ucs, lc, mode⟩
    rw [hs] at h
    simp only at h
    subst h
    unfold compile_pattern
    rw [hscan, hs]
    simp [compileStep, flush_user_chars]
  exact ⟨heq, fun env msg t => by rw [heq]⟩

/-- Witness for C4 on the pattern "abc". -/
theorem trailing_percent_spec_witness :
    compile_pattern ("abc" ++ "%") = compile_pattern "abc" :=
  (trailing_percent_spec "abc" (by decide)).1

/-- Counterexample to C4 as universally stated: appending a bare `%` to the
pattern "%" completes the pending directive as the unknown selector `%`,
emitting the literal "%%", while "%" alone compiles to the empty chain. -/
theorem trailing_percent_counterexample :
    ¬ (applyChain ⟨0, fun _ => 0⟩ ⟨"", 0, "", 0, 0⟩ ⟨0, 0, 0, 1, 0, 70, 0⟩
        (compile_pattern ("%" ++ "%")) =
       applyChain ⟨0, fun _ => 0⟩ ⟨"", 0, "", 0, 0⟩ ⟨0, 0, 0, 1, 0, 70, 0⟩
        (compile_pattern "%")) := by
  decide

/-- Claim C1, amended: `get_cached_offset` recomputes the offset from the
OS source and updates both cache fields exactly when the record timestamp
minus the last-refresh timestamp reaches the 5-second window, and returns
the cached value otherwise; consequently, when the first of two invocations
refreshes the cache, a second invocation whose record timestamp differs
from the first's by less than the window returns the same offset. -/
theorem z_cache_spec (env : OsEnv) (st : ZState) (t1 t2 : Int) (tm1 tm2 : Tm) :
    (cache_refresh ≤ t1 - st.last_update →
      get_cached_offset env st t1 tm1 =
        (⟨t1, env.utc_minutes_offset tm1⟩, env.utc_minutes_offset tm1)) ∧
    (t1 - st.last_update < cache_refresh →
      get_cached_offset env st t1 tm1 = (st, st.offset_minutes)) ∧
    (cache_refresh ≤ t1 - st.last_update → t2 - t1 < cache_refresh →
      (get_cached_offset env (get_cached_offset env st t1 tm1).1 t2 tm2).2 =
        (get_cached_offset env st t1 tm1).2) := by
  refine ⟨fun h => ?_, fun h => ?_, fun h1 h2 => ?_⟩
  · unfold get_cached_offset
    rw [if_pos h]
  · unfold get_cached_offset
    rw [if_neg (by omega)]
  · have hfirst : get_cached_offset env st t1 tm1 =
        (⟨t1, env.utc_minutes_offset tm1⟩, env.utc_minutes_offset tm1) := by
      unfold get_cached_offset
      rw [if_pos h1]
    rw [hfirst]
    unfold get_cached_offset
    rw [if_neg (by simp only; omega)]

/-- Witness for C1: a refresh at t=6s from a stale cache, followed by a
call at t=7s that returns the refreshed value. -/
theorem z_cache_spec_witness :
    get_cached_offset ⟨0, fun _ => 17⟩ ⟨0, 5⟩ 6000000000 ⟨0, 0, 0, 1, 0, 70, 0⟩ =
      (⟨6000000000, 17⟩, 17) ∧
    (get_cached_offset ⟨0, fun _ => 17⟩
        (get_cached_offset ⟨0, fun _ => 17⟩ ⟨0, 5⟩ 6000000000 ⟨0, 0, 0, 1, 0, 70, 0⟩).1
        7000000000 ⟨0, 0, 0, 1, 0, 70, 0⟩).2 =
      (get_cached_offset ⟨0, fun _ => 17⟩ ⟨0, 5⟩ 6000000000 ⟨0, 0, 0, 1, 0, 70, 0⟩).2 := by
  constructor
  · exact (z_cache_spec ⟨0, fun _ => 17⟩ ⟨0, 5⟩ 6000000000 7000000000
      ⟨0, 0, 0, 1, 0, 70, 0⟩ ⟨0, 0, 0, 1, 0, 70, 0⟩).1 (by norm_num [cache_refresh])
  · exact (z_cache_spec ⟨0, fun _ => 17⟩ ⟨0, 5⟩ 6000000000 7000000000
      ⟨0, 0, 0, 1, 0, 70, 0⟩ ⟨0, 0, 0, 1, 0, 70, 0⟩).2.2 (by norm_num [cache_refresh])
      (by norm_num [cache_refresh])

/-- Counterexample to C1 as stated: with a constant OS offset source of 60
minutes and a cache last refreshed at t=0 holding 0, a call at t=3s (inside
the window, returns the stale 0) and a call at t=6s (3s later, yet 6s past
the last refresh, so it recomputes 60) differ by less than the refresh
window but return different offsets. -/
theorem z_cache_counterexample :
    ((6000000000 : Int) - 3000000000 < cache_refresh) ∧
    (get_cached_offset ⟨0, fun _ => 60⟩ ⟨0, 0⟩ 3000000000 ⟨0, 0, 0, 1, 0, 70, 0⟩).2 ≠
      (get_cached_offset ⟨0, fun _ => 60⟩
        (get_cached_offset ⟨0, fun _ => 60⟩ ⟨0, 0⟩ 3000000000 ⟨0, 0, 0, 1, 0, 70, 0⟩).1
        6000000000 ⟨0, 0, 0, 1, 0, 70, 0⟩).2 := by
  constructor
  · norm_num [cache_refresh]
  · decide

/-! ## Sub-second remainder lemmas for C9 -/

theorem tmod_eq_time_fraction (t : Int) :
    (t.tdiv 1000000).tmod 1000 = time_fraction_ms t ∧
    (t.tdiv 1000).tmod 1000000 = time_fraction_us t ∧
    t.tmod 1000000000 = time_fraction_ns t := by
  refine ⟨?_, ?_, ?_⟩
  · rw [Int.tmod_def,
      show (t.tdiv 1000000).tdiv 1000 = t.tdiv 1000000000 from tdiv_tdiv t 1000000 1000]
    unfold time_fraction_ms
    ring
  · rw [Int.tmod_def,
      show (t.tdiv 1000).tdiv 1000000 = t.tdiv 1000000000 from tdiv_tdiv t 1000 1000000]
    unfold time_fraction_us
    ring
  · rw [Int.tmod_def]
    unfold time_fraction_ns
    ring

theorem fmtPad_len (r : Int) (k : Nat) (h0 : 0 ≤ r) (h1 : r < (10 : Int) ^ k)
    (hk : 0 < k) :
    fmtPad r k = zeroPad k (Nat.repr r.toNat) ∧ (fmtPad r k).length = k := by
  have he : fmtPad r k = zeroPad k (Nat.repr r.toNat) := fmtPad_of_nonneg r k h0
  refine ⟨he, ?_⟩
  rw [he, zeroPad_length]
  have hcast : ((10 : Int) ^ k) = ((10 ^ k : Nat) : Int) := by push_cast; ring
  rw [hcast] at h1
  have hn : r.toNat < 10 ^ k := by omega
  have hlen := repr_length_le r.toNat k hn hk
  omega

/-- Claim C9: each sub-second directive appends the sub-second remainder of
the record timestamp, equal to `cast(duration, unit) − cast(seconds, unit)`
as computed by `time_fraction`, zero-padded to exactly 3 (ms), 6 (µs) or 9
(ns) digits for timestamps at or after the epoch. -/
theorem subsecond_spec (msg : LogMsg) :
    e_formatter msg = fmtPad (time_fraction_ms msg.time) 3 ∧
    f_formatter msg = fmtPad (time_fraction_us msg.time) 6 ∧
    F_formatter msg = fmtPad (time_fraction_ns msg.time) 9 ∧
    (∀ env t, applyDirective env msg t Directive.millis = e_formatter msg ∧
      applyDirective env msg t Directive.micros = f_formatter msg ∧
      applyDirective env msg t Directive.nanos = F_formatter msg) ∧
    (0 ≤ msg.time →
      (e_formatter msg = zeroPad 3 (Nat.repr (time_fraction_ms msg.time).toNat) ∧
        (e_formatter msg).length = 3) ∧
      (f_formatter msg = zeroPad 6 (Nat.repr (time_fraction_us msg.time).toNat) ∧
        (f_formatter msg).length = 6) ∧
      (F_formatter msg = zeroPad 9 (Nat.repr (time_fraction_ns msg.time).toNat) ∧
        (F_formatter msg).length = 9)) := by
  obtain ⟨hms, hus, hns⟩ := tmod_eq_time_fraction msg.time
  have he : e_formatter msg = fmtPad (time_fraction_ms msg.time) 3 := by
    unfold e_formatter
    rw [hms]
  have hf : f_formatter msg = fmtPad (time_fraction_us msg.time) 6 := by
    unfold f_formatter
    rw [hus]
  have hF : F_formatter msg = fmtPad (time_fraction_ns msg.time) 9 := by
    unfold F_formatter
    rw [hns]
  refine ⟨he, hf, hF, fun env t => ⟨rfl, rfl, rfl⟩, fun ht => ?_⟩
  have hms0 : 0 ≤ time_fraction_ms msg.time := by
    rw [← hms]
    exact Int.tmod_nonneg _ (Int.tdiv_nonneg ht (by norm_num))
  have hms1 : time_fraction_ms msg.time < (10 : Int) ^ 3 := by
    rw [← hms, show ((10 : Int) ^ 3) = 1000 by norm_num]
    exact Int.tmod_lt_of_pos _ (by norm_num)
  have hus0 : 0 ≤ time_fraction_us msg.time := by
    rw [← hus]
    exact Int.tmod_nonneg _ (Int.tdiv_nonneg ht (by norm_num))
  have hus1 : time_fraction_us msg.time < (10 : Int) ^ 6 := by
    rw [← hus, show ((10 : Int) ^ 6) = 1000000 by norm_num]
    exact Int.tmod_lt_of_pos _ (by norm_num)
  have hns0 : 0 ≤ time_fraction_ns msg.time := by
    rw [← hns]
    exact Int.tmod_nonneg _ ht
  have hns1 : time_fraction_ns msg.time < (10 : Int) ^ 9 := by
    rw [← hns, show ((10 : Int) ^ 9) = 1000000000 by norm_num]
    exact Int.tmod_lt_of_pos _ (by norm_num)
  obtain ⟨hp3, hl3⟩ := fmtPad_len _ 3 hms0 hms1 (by norm_num)
  obtain ⟨hp6, hl6⟩ := fmtPad_len _ 6 hus0 hus1 (by norm_num)
  obtain ⟨hp9, hl9⟩ := fmtPad_len _ 9 hns0 hns1 (by norm_num)
  exact ⟨⟨by rw [he, hp3], by rw [he, hl3]⟩,
    ⟨by rw [hf, hp6], by rw [hf, hl6]⟩,
    ⟨by rw [hF, hp9], by rw [hF, hl9]⟩⟩

/-- Witness for C9 at a concrete post-epoch timestamp. -/
theorem subsecond_spec_witness :
    e_formatter ⟨"", 0, "", 1717470000123456789, 0⟩ =
      fmtPad (time_fraction_ms 1717470000123456789) 3 ∧
    (e_formatter ⟨"", 0, "", 1717470000123456789, 0⟩).length = 3 ∧
    (f_formatter ⟨"", 0, "", 1717470000123456789, 0⟩).length = 6 ∧
    (F_formatter ⟨"", 0, "", 1717470000123456789, 0⟩).length = 9 := by
  have h := subsecond_spec ⟨"", 0, "", 1717470000123456789, 0⟩
  have h2 := h.2.2.2.2 (by norm_num)
  exact ⟨h.1, h2.1.2, h2.2.1.2, h2.2.2.2⟩

/-! ## The full-line composite directive (C5) -/

theorem default_chain :
    compile_pattern default_pattern =
      [Directive.lit "[", Directive.year4, Directive.lit "-", Directive.month2,
       Directive.lit "-", Directive.day2, Directive.lit " ", Directive.hour24,
       Directive.lit ":", Directive.minute, Directive.lit ":", Directive.second,
       Directive.lit ".", Directive.millis, Directive.lit "] [", Directive.name 0,
       Directive.lit "] [", Directive.level 0, Directive.lit "] ",
       Directive.msgText] := by decide

theorem repr_toUInt32 (x : Int) (h0 : 0 ≤ x) (h1 : x < 4294967296) :
    Nat.repr (toUInt32 x) = Int.repr x := by
  rw [toUInt32_of_small x h0 h1, Int_repr_of_nonneg x h0]

theorem fmtPadNat_toUInt32 (x : Int) (w : Nat) (h0 : 0 ≤ x) (h1 : x < 4294967296) :
    fmtPadNat (toUInt32 x) w = fmtPad x w := by
  rw [toUInt32_of_small x h0 h1]
  unfold fmtPadNat
  rw [fmtPad_of_nonneg x w h0]

/-- A value representable both as a C++ `int` field and unchanged by the
cast to `unsigned int`. -/
def inRangeU32 (x : Int) : Prop := 0 ≤ x ∧ x < 4294967296

/-- Claim C5, amended: for every record whose timestamp is at or after the
epoch and every calendar breakdown whose fields are non-negative (so
unaffected by the `static_cast<unsigned int>` in `full_formatter`), the
full-line composite directive (`%+`) produces exactly the bytes of the
chain compiled from the default pattern
"[%Y-%m-%d %H:%M:%S.%e] [%n] [%l] %v". -/
theorem full_formatter_eq_chain (env : OsEnv) (msg : LogMsg) (t : Tm)
    (ht : 0 ≤ msg.time)
    (hy : inRangeU32 (t.tm_year + 1900)) (hmo : inRangeU32 (t.tm_mon + 1))
    (hd : inRangeU32 t.tm_mday) (hh : inRangeU32 t.tm_hour)
    (hmi : inRangeU32 t.tm_min) (hs : inRangeU32 t.tm_sec) :
    applyDirective env msg t Directive.fullLine =
      applyChain env msg t (compile_pattern default_pattern) := by
  have hmm0 : 0 ≤ (msg.time.tdiv 1000000).tmod 1000 :=
    Int.tmod_nonneg _ (Int.tdiv_nonneg ht (by norm_num))
  have hmm1 : (msg.time.tdiv 1000000).tmod 1000 < 4294967296 := by
    have := Int.tmod_lt_of_pos (msg.time.tdiv 1000000) (b := 1000) (by norm_num)
    omega
  rw [default_chain]
  show full_formatter msg t = _
  unfold applyChain
  simp only [List.map, applyDirective, String.join, List.foldl]
  unfold full_formatter Y_formatter m_formatter d_formatter H_formatter M_formatter
    S_formatter e_formatter name_formatter level_formatter v_formatter
  rw [repr_toUInt32 _ hy.1 hy.2, fmtPadNat_toUInt32 _ _ hmo.1 hmo.2,
    fmtPadNat_toUInt32 _ _ hd.1 hd.2, fmtPadNat_toUInt32 _ _ hh.1 hh.2,
    fmtPadNat_toUInt32 _ _ hmi.1 hmi.2, fmtPadNat_toUInt32 _ _ hs.1 hs.2,
    fmtPadNat_toUInt32 _ _ hmm0 hmm1, pad_space_left_zero, pad_space_left_zero]
  rw [show ("] [" : String) = "] " ++ "[" from rfl]
  simp [String.append_assoc, empty_append_str]

/-- Witness for C5 at a concrete post-epoch record. -/
theorem full_formatter_eq_chain_witness :
    applyDirective ⟨0, fun _ => 0⟩ ⟨"worker", 2, "msg", 1717470000123000000, 7⟩
      ⟨1, 2, 3, 4, 5, 124, 6⟩ Directive.fullLine =
    applyChain ⟨0, fun _ => 0⟩ ⟨"worker", 2, "msg", 1717470000123000000, 7⟩
      ⟨1, 2, 3, 4, 5, 124, 6⟩ (compile_pattern default_pattern) :=
  full_formatter_eq_chain ⟨0, fun _ => 0⟩ ⟨"worker", 2, "msg", 1717470000123000000, 7⟩
    ⟨1, 2, 3, 4, 5, 124, 6⟩ (by norm_num) (by norm_num [inRangeU32])
    (by norm_num [inRangeU32]) (by norm_num [inRangeU32]) (by norm_num [inRangeU32])
    (by norm_num [inRangeU32]) (by norm_num [inRangeU32])

/-- Counterexample to C5 as universally stated: for a pre-epoch record
(timestamp -500ms) the chain renders the millisecond remainder as "-500"
while `full_formatter` casts it through `unsigned int` and renders
"4294966796", so the outputs differ. -/
theorem full_formatter_counterexample :
    applyDirective ⟨0, fun _ => 0⟩ ⟨"worker", 2, "msg", -500000000, 7⟩
      ⟨1, 2, 3, 4, 5, 124, 6⟩ Directive.fullLine ≠
    applyChain ⟨0, fun _ => 0⟩ ⟨"worker", 2, "msg", -500000000, 7⟩
      ⟨1, 2, 3, 4, 5, 124, 6⟩ (compile_pattern default_pattern) := by
  decide

end Spdlog
